import Mathlib

/-!
Shallow embedding of `src/SemScho_forwardCitationFetch.py`
(`SemanticScholarCitationScraper`): identifier resolution
(`get_paper_by_doi`), paginated citation fetching
(`get_forward_citations`), and record flattening (`process_dois`).

Network responses are modelled as explicit scripted streams; each HTTP
request consumes the head of the stream.  `time.sleep` calls for the
429 cooldown are counted (the inter-request `self.delay` sleeps carry
no information relevant to the claims and are not counted).  A loop
that exhausts its scripted stream while still running is modelled as
`none` (the real program would block on a further request: there is no
scripted answer for it).
-/

/-- A value that is either a Python string or a Python int, as stored in
the flat record rows: `citing_year` is `row.get('year', '')` (int when
present, `''` when absent) and `citing_citation_count` is
`row.get('citationCount', 0)`. -/
inductive PyVal where
  | str (s : String)
  | int (n : Int)
deriving DecidableEq

/-- One element of the `authors` list of a citing paper; the `name` key
may be missing (`author.get('name', '')`). -/
structure Author where
  name : Option String
deriving DecidableEq

/-- The `externalIds` mapping of a citing paper, restricted to the keys
the source reads (`DOI`, `PubMed`, `ArXiv`); each may be absent. -/
structure ExternalIds where
  DOI : Option String
  PubMed : Option String
  ArXiv : Option String
deriving DecidableEq

/-- The nested `citingPaper` sub-record of a citation edge.  Every field
the source reads with `.get` is optional; `externalIds = none` covers
both an absent key and a present-but-null value (the source normalises
both with `citing_paper.get('externalIds') or {}`). -/
structure CitingPaper where
  title : Option String
  authors : Option (List Author)
  year : Option Int
  venue : Option String
  citationCount : Option Int
  externalIds : Option ExternalIds
  abstract : Option String
  publicationTypes : Option (List String)
  paperId : Option String
deriving DecidableEq

/-- One raw citation record returned by the service; the source reads it
only through `citation.get('citingPaper', {})`. -/
structure CitationEdge where
  citingPaper : Option CitingPaper
deriving DecidableEq

/-- A `CitingPaper` with every field absent: the value
`citation.get('citingPaper', {})` denotes when `citingPaper` is missing. -/
def CitingPaper.empty : CitingPaper :=
  ⟨none, none, none, none, none, none, none, none, none⟩

/-- The resolved original paper as used by `process_dois`: `paperId` is
accessed with `paper['paperId']` (required), `title` and `corpusId` with
`.get`. -/
structure Paper where
  paperId : String
  title : Option String
  corpusId : Option String
deriving DecidableEq

/-- The flattened output row built at lines 137-153 of the source, with
exactly the fifteen fields of `citation_data`.  `citing_year` and
`citing_citation_count` are `PyVal` because their defaults (`''` and
`0`) do not share a type with a present value; all other fields are
always strings. -/
structure FlatRecord where
  original_doi : String
  original_title : String
  original_paper_id : String
  original_corpus_id : String
  citing_title : String
  citing_authors : String
  citing_year : PyVal
  citing_venue : String
  citing_doi : String
  citing_pubmed_id : String
  citing_arxiv_id : String
  citing_citation_count : PyVal
  citing_paper_id : String
  citing_publication_types : String
  citing_abstract : String
deriving DecidableEq

/-- Python `s[:500]`: the first 500 characters (code points). -/
def pyTake500 (s : String) : String :=
  String.mk (s.toList.take 500)

/-- The body of the `for citation in citations` loop of `process_dois`
(source lines 127-153): flattening of one citation edge into one row.
`'; '.join(xs)` is `String.intercalate "; " xs`; the abstract field is
`citing_paper.get('abstract', '')[:500] + '...' if
citing_paper.get('abstract') else ''`, whose condition is the
truthiness of the abstract (absent, null and `''` are all falsy). -/
def normalizeEdge (doi : String) (paper : Paper) (citation : CitationEdge) :
    FlatRecord :=
  let citing_paper := citation.citingPaper.getD CitingPaper.empty
  let author_names := (citing_paper.authors.getD []).map (fun a => a.name.getD "")
  let external_ids := citing_paper.externalIds.getD ⟨none, none, none⟩
  { original_doi := doi
    original_title := paper.title.getD "Unknown"
    original_paper_id := paper.paperId
    original_corpus_id := paper.corpusId.getD ""
    citing_title := citing_paper.title.getD ""
    citing_authors := String.intercalate "; " author_names
    citing_year := match citing_paper.year with
      | some y => PyVal.int y
      | none => PyVal.str ""
    citing_venue := citing_paper.venue.getD ""
    citing_doi := external_ids.DOI.getD ""
    citing_pubmed_id := external_ids.PubMed.getD ""
    citing_arxiv_id := external_ids.ArXiv.getD ""
    citing_citation_count := match citing_paper.citationCount with
      | some n => PyVal.int n
      | none => PyVal.int 0
    citing_paper_id := citing_paper.paperId.getD ""
    citing_publication_types :=
      String.intercalate "; " (citing_paper.publicationTypes.getD [])
    citing_abstract := match citing_paper.abstract with
      | none => ""
      | some s => if s = "" then "" else pyTake500 s ++ "..." }

/-- Python `s.replace(pat, '')` specialised to a four-character pattern
`[p1, p2, p3, p4]` and empty replacement: scan left to right; on a match
remove it and continue scanning after the removed text; otherwise
advance one character.  A tail shorter than the pattern cannot match. -/
def removeTag4 (p1 p2 p3 p4 : Char) : List Char → List Char
  | x1 :: x2 :: x3 :: x4 :: rest =>
    if x1 = p1 ∧ x2 = p2 ∧ x3 = p3 ∧ x4 = p4 then
      removeTag4 p1 p2 p3 p4 rest
    else
      x1 :: removeTag4 p1 p2 p3 p4 (x2 :: x3 :: x4 :: rest)
  | s => s

/-- Python `s.strip()`: drop whitespace from both ends. -/
def pyStrip (s : List Char) : List Char :=
  ((s.dropWhile Char.isWhitespace).reverse.dropWhile Char.isWhitespace).reverse

/-- Source line 23: `clean_doi = doi.replace('DOI:', '').replace('doi:', '').strip()`. -/
def cleanDoiChars (s : List Char) : List Char :=
  pyStrip (removeTag4 'd' 'o' 'i' ':' (removeTag4 'D' 'O' 'I' ':' s))

/-- The cleaned DOI, `clean_doi`, on `String`. -/
def clean_doi (doi : String) : String :=
  String.mk (cleanDoiChars doi.toList)

/-- Source line 25: the URL queried by `get_paper_by_doi`,
`f"{self.base_url}/paper/DOI:{clean_doi}"`.  Two calls issue the
identical service query exactly when their `resolveUrl`s are equal (the
`fields` parameter is a constant). -/
def resolveUrl (doi : String) : String :=
  "https://api.semanticscholar.org/graph/v1/paper/DOI:" ++ clean_doi doi

/-- One scripted response to a resolve request, covering every branch
of `get_paper_by_doi` (source lines 30-53): HTTP 200 with a paper,
HTTP 404, HTTP 429 (throttling), any other status code, a
`requests.exceptions.Timeout`, and any other exception. -/
inductive ResolveResp where
  | okPaper (p : Paper)
  | notFound
  | throttled
  | otherStatus
  | timedOut
  | exnFault
deriving DecidableEq

/-- Resolution, `get_paper_by_doi` (source lines 21-53), over a scripted response
stream.  Returns `some (outcome, totalCooldown)` where `outcome` is the
Python return value (`Optional[Dict]`) and `totalCooldown` the total
time spent in `time.sleep(60)` cooldown waits; on HTTP 429 the source
sleeps 60 time-units and recurses with the same `doi`, hence the same
cleaned identifier and the same request.  `none` models exhausting the
scripted stream while still retrying: with an all-throttling stream the
real call never returns. -/
def get_paper_by_doi : List ResolveResp → Option (Option Paper × Nat)
  | [] => none
  | ResolveResp.okPaper p :: _ => some (some p, 0)
  | ResolveResp.notFound :: _ => some (none, 0)
  | ResolveResp.throttled :: rest =>
    (get_paper_by_doi rest).map (fun r => (r.1, r.2 + 60))
  | ResolveResp.otherStatus :: _ => some (none, 0)
  | ResolveResp.timedOut :: _ => some (none, 0)
  | ResolveResp.exnFault :: _ => some (none, 0)

/-- The Python return value produced by one non-throttling response. -/
def respOutcome : ResolveResp → Option Paper
  | ResolveResp.okPaper p => some p
  | _ => none

/-- One scripted response to a citations-page request, covering every
branch of the `while True` loop of `get_forward_citations` (source
lines 67-106): HTTP 200 with a (possibly empty) page, HTTP 429
(throttling), any other status code, a timeout, and any other
exception. -/
inductive ApiResp where
  | ok (citations : List CitationEdge)
  | throttled
  | otherStatus
  | timedOut
  | exnFault
deriving DecidableEq

/-- The three response kinds the spec groups as a transport/API fault;
each of them executes a `break` in the source (lines 95-104). -/
def ApiResp.isTransportFault : ApiResp → Bool
  | ApiResp.otherStatus => true
  | ApiResp.timedOut => true
  | ApiResp.exnFault => true
  | _ => false

/-- The observable outcome of one `get_forward_citations` call:
the accumulated `all_citations`, the offsets of the issued page
requests in order (so `offsets.length` is the number of requests), and
the number of 60-time-unit cooldown waits performed. -/
structure FetchResult where
  citations : List CitationEdge
  offsets : List Nat
  cooldowns : Nat
deriving DecidableEq

/-- The `while True` loop of `get_forward_citations` (source lines
67-106) over a scripted response stream.  Each iteration requests the
page at `offset` (logged in `log`); on HTTP 200 the source breaks if
the page is empty, extends the accumulator, breaks if the page length
is strictly less than the constant `1000` (not the `limit` parameter),
else advances `offset` by the constant `1000`; on HTTP 429 it sleeps 60
and `continue`s with `offset` unchanged; any other status, timeout or
exception breaks, returning the accumulator.  `none` models exhausting
the scripted stream while the loop is still running. -/
def fetchLoop : List ApiResp → Nat → List CitationEdge → List Nat → Nat →
    Option FetchResult
  | [], _, _, _, _ => none
  | ApiResp.ok cs :: rest, offset, acc, log, cd =>
    if cs = [] then some ⟨acc, log ++ [offset], cd⟩
    else if cs.length < 1000 then some ⟨acc ++ cs, log ++ [offset], cd⟩
    else fetchLoop rest (offset + 1000) (acc ++ cs) (log ++ [offset]) cd
  | ApiResp.throttled :: rest, offset, acc, log, cd =>
    fetchLoop rest offset acc (log ++ [offset]) (cd + 1)
  | ApiResp.otherStatus :: _, offset, acc, log, cd =>
    some ⟨acc, log ++ [offset], cd⟩
  | ApiResp.timedOut :: _, offset, acc, log, cd =>
    some ⟨acc, log ++ [offset], cd⟩
  | ApiResp.exnFault :: _, offset, acc, log, cd =>
    some ⟨acc, log ++ [offset], cd⟩

/-- The page-size parameter sent to the service, source line 59:
`'limit': min(limit, 1000)`. -/
def pageSizeParam (limit : Nat) : Nat :=
  min limit 1000

/-- Fetching, `get_forward_citations` (source lines 55-108): the loop starts at
`offset = 0` with an empty accumulator.  The `limit` argument only sets
the `limit` request parameter (`pageSizeParam limit`), which shapes the
pages the service returns — here the free scripted stream — and is
never read by the loop itself. -/
def get_forward_citations (limit : Nat) (responses : List ApiResp) :
    Option FetchResult :=
  fetchLoop responses 0 [] [] 0

/-- Modelled from the spec's words, for refinement comparison with
`fetchLoop` (it is not code of the repository): the same loop but with
the termination check and the offset step using `pageSize` — "stop when
the returned page is empty OR its length is strictly less than
pageSize", "offset increases monotonically by exactly pageSize after
each non-terminal page". -/
def fetchLoopSpec (pageSize : Nat) : List ApiResp → Nat → List CitationEdge →
    List Nat → Nat → Option FetchResult
  | [], _, _, _, _ => none
  | ApiResp.ok cs :: rest, offset, acc, log, cd =>
    if cs = [] then some ⟨acc, log ++ [offset], cd⟩
    else if cs.length < pageSize then some ⟨acc ++ cs, log ++ [offset], cd⟩
    else fetchLoopSpec pageSize rest (offset + pageSize) (acc ++ cs)
      (log ++ [offset]) cd
  | ApiResp.throttled :: rest, offset, acc, log, cd =>
    fetchLoopSpec pageSize rest offset acc (log ++ [offset]) (cd + 1)
  | ApiResp.otherStatus :: _, offset, acc, log, cd =>
    some ⟨acc, log ++ [offset], cd⟩
  | ApiResp.timedOut :: _, offset, acc, log, cd =>
    some ⟨acc, log ++ [offset], cd⟩
  | ApiResp.exnFault :: _, offset, acc, log, cd =>
    some ⟨acc, log ++ [offset], cd⟩

/-- The spec-worded fetcher built on `fetchLoopSpec`, with
`pageSize = min(limit, 1000)`. -/
def get_forward_citations_spec (limit : Nat) (responses : List ApiResp) :
    Option FetchResult :=
  fetchLoopSpec (pageSizeParam limit) responses 0 [] [] 0

/-- The request offsets of `k` consecutive full pages starting at
`off`: `off, off + 1000, ...`. -/
def pageOffsets (off : Nat) : Nat → List Nat
  | 0 => []
  | k + 1 => off :: pageOffsets (off + 1000) k

/-- A citation edge with no `citingPaper` sub-record, used to build
concrete pages. -/
def blankEdge : CitationEdge :=
  ⟨none⟩

/-- A full page of 1000 edges. -/
def page1000 : List CitationEdge :=
  List.replicate 1000 blankEdge

/-- A partial page of 400 edges. -/
def page400 : List CitationEdge :=
  List.replicate 400 blankEdge

/-- A page of 500 edges, full for a requested limit of 500. -/
def page500 : List CitationEdge :=
  List.replicate 500 blankEdge

/-- The body of the `for i, doi in enumerate(dois)` loop of
`process_dois` (source lines 113-157) for one input document.  The
scripted input supplies the document's DOI, the response stream for its
resolve call and the response stream for its citations call.  If the
resolve returns a falsy paper (`if not paper: continue`) the document
contributes no rows; otherwise every fetched citation is flattened by
`normalizeEdge` with the raw input `doi` and the resolved paper.
`none` is the model artifact for an exhausted scripted stream. -/
def processEntry (entry : String × List ResolveResp × List ApiResp) :
    Option (List FlatRecord) :=
  match get_paper_by_doi entry.2.1 with
  | none => none
  | some (none, _) => some []
  | some (some paper, _) =>
    match get_forward_citations 1000 entry.2.2 with
    | none => none
    | some r => some (r.citations.map (normalizeEdge entry.1 paper))

/-- Flattening, `process_dois` (source lines 110-159): documents processed strictly
in order, each contributing its rows to `all_forward_citations`; the
returned list is the final dataset (the rows of the returned
DataFrame). -/
def process_dois :
    List (String × List ResolveResp × List ApiResp) → Option (List FlatRecord)
  | [] => some []
  | e :: es =>
    match processEntry e, process_dois es with
    | some rows, some rest => some (rows ++ rest)
    | _, _ => none

/-- Framing: the accumulated offset log and cooldown counter are write-only
state of the loop; a run with arbitrary initial `log` and `cd` is the run
with empty initial state, with `log` prepended and `cd` added. -/
lemma fetchLoop_frame (s : List ApiResp) :
    ∀ (off : Nat) (acc : List CitationEdge) (log : List Nat) (cd : Nat),
    fetchLoop s off acc log cd
      = (fetchLoop s off acc [] 0).map
          (fun r => ⟨r.citations, log ++ r.offsets, cd + r.cooldowns⟩) := by
  induction s with
  | nil => intro off acc log cd; simp [fetchLoop]
  | cons r rest ih =>
    intro off acc log cd
    cases r with
    | ok cs =>
      by_cases h1 : cs = []
      · simp [fetchLoop, h1]
      · by_cases h2 : cs.length < 1000
        · simp [fetchLoop, h1, h2]
        · simp only [fetchLoop, h1, h2, if_false, if_neg, not_false_eq_true,
            List.nil_append]
          rw [ih (off + 1000) (acc ++ cs) (log ++ [off]) cd,
            ih (off + 1000) (acc ++ cs) [off] 0]
          cases fetchLoop rest (off + 1000) (acc ++ cs) [] 0 <;> simp
    | throttled =>
      simp only [fetchLoop, List.nil_append, Nat.zero_add]
      rw [ih off acc (log ++ [off]) (cd + 1), ih off acc [off] 1]
      cases fetchLoop rest off acc [] 0 <;> simp
      omega
    | otherStatus => simp [fetchLoop]
    | timedOut => simp [fetchLoop]
    | exnFault => simp [fetchLoop]

lemma pageOffsets_length (off k : Nat) : (pageOffsets off k).length = k := by
  induction k generalizing off with
  | zero => simp [pageOffsets]
  | succ n ih => simp [pageOffsets, ih]

/-- Consuming `k` consecutive full pages (each of length exactly 1000)
never terminates the loop: it appends their edges, logs their offsets
and advances the offset by `1000 * k`. -/
lemma fetchLoop_full (pages : List (List CitationEdge)) :
    (∀ p ∈ pages, p.length = 1000) →
    ∀ (s : List ApiResp) (off : Nat) (acc : List CitationEdge) (log : List Nat)
      (cd : Nat),
    fetchLoop (pages.map ApiResp.ok ++ s) off acc log cd
      = fetchLoop s (off + 1000 * pages.length) (acc ++ pages.flatten)
          (log ++ pageOffsets off pages.length) cd := by
  induction pages with
  | nil => intro _ s off acc log cd; simp [pageOffsets]
  | cons p ps ih =>
    intro h s off acc log cd
    have hp : p.length = 1000 := h p (List.mem_cons_self p ps)
    have hne : ¬p = [] := by intro e; rw [e] at hp; simp at hp
    have hnl : ¬p.length < 1000 := by omega
    simp only [List.map_cons, List.cons_append, fetchLoop, hne, hnl, if_false,
      if_neg, not_false_eq_true, List.append_eq]
    rw [ih (fun q hq => h q (List.mem_cons_of_mem p hq)) s (off + 1000)
      (acc ++ p) (log ++ [off]) cd]
    congr 1
    · simp [List.length_cons]; ring
    · simp
    · simp [pageOffsets]

/-- With `pageSize = 1000` the spec-worded loop and the source loop
coincide: the hardcoded constant 1000 in the source equals the page
size exactly when the requested limit is at least 1000. -/
lemma fetchLoopSpec_1000 (s : List ApiResp) :
    ∀ (off : Nat) (acc : List CitationEdge) (log : List Nat) (cd : Nat),
    fetchLoopSpec 1000 s off acc log cd = fetchLoop s off acc log cd := by
  induction s with
  | nil => intro off acc log cd; rfl
  | cons r rest ih =>
    intro off acc log cd
    cases r with
    | ok cs =>
      by_cases h1 : cs = []
      · simp [fetchLoopSpec, fetchLoop, h1]
      · by_cases h2 : cs.length < 1000
        · simp [fetchLoopSpec, fetchLoop, h1, h2]
        · simp [fetchLoopSpec, fetchLoop, h1, h2, ih]
    | throttled => simp [fetchLoopSpec, fetchLoop, ih]
    | otherStatus => rfl
    | timedOut => rfl
    | exnFault => rfl

/-- A run whose first scripted response is a successful page issues its
first request at the starting offset. -/
lemma fetchLoop_ok_head (cs : List CitationEdge) (s : List ApiResp) (off : Nat)
    (acc : List CitationEdge) (r : FetchResult)
    (h : fetchLoop (ApiResp.ok cs :: s) off acc [] 0 = some r) :
    ∃ t, r.offsets = off :: t := by
  by_cases h1 : cs = []
  · simp [fetchLoop, h1] at h
    exact ⟨[], by rw [← h]⟩
  · by_cases h2 : cs.length < 1000
    · simp [fetchLoop, h1, h2] at h
      exact ⟨[], by rw [← h]⟩
    · simp only [fetchLoop, h1, h2, if_false, if_neg, not_false_eq_true,
        List.nil_append] at h
      rw [fetchLoop_frame] at h
      cases hc : fetchLoop s (off + 1000) (acc ++ cs) [] 0 with
      | none => rw [hc] at h; simp at h
      | some r0 =>
        rw [hc] at h
        simp only [Option.map_some'] at h
        injection h with h
        exact ⟨r0.offsets, by rw [← h]; simp⟩

set_option maxRecDepth 20000

/-- C1 (amended): the loop stops, on a successful page, exactly when the
page is empty or its length is strictly less than the hardcoded
constant 1000 — not the page size `min(limit, 1000)` — and this check
runs before the offset is advanced.  When the requested limit is at
least 1000 the two policies coincide (the spec-worded loop equals the
source loop), and the claim's examples hold: pages of sizes
[1000, 1000, 400] give exactly 3 requests (offsets 0, 1000, 2000) and
2400 edges; pages of sizes [1000, 0] give exactly 2 requests and 1000
edges. -/
theorem c1_pagination_termination_amended :
    (∀ limit : Nat, 1000 ≤ limit → ∀ responses : List ApiResp,
        get_forward_citations_spec limit responses
          = get_forward_citations limit responses)
  ∧ get_forward_citations 1000
        [ApiResp.ok page1000, ApiResp.ok page1000, ApiResp.ok page400]
      = some ⟨page1000 ++ page1000 ++ page400, [0, 1000, 2000], 0⟩
  ∧ (page1000 ++ page1000 ++ page400).length = 2400
  ∧ get_forward_citations 1000 [ApiResp.ok page1000, ApiResp.ok []]
      = some ⟨page1000, [0, 1000], 0⟩
  ∧ page1000.length = 1000 ∧ page400.length = 400 := by
  refine ⟨?_, by rfl, by rfl, by rfl, by rfl, by rfl⟩
  intro limit h responses
  have hp : pageSizeParam limit = 1000 := by simp [pageSizeParam]; omega
  simp [get_forward_citations_spec, get_forward_citations, hp,
    fetchLoopSpec_1000]

/-- C1 witness: the general conjunct of the amended theorem applied at
limit 1000 and the claim's [1000, 1000, 400] response script. -/
theorem c1_pagination_termination_amended_witness :
    get_forward_citations_spec 1000
        [ApiResp.ok page1000, ApiResp.ok page1000, ApiResp.ok page400]
      = get_forward_citations 1000
        [ApiResp.ok page1000, ApiResp.ok page1000, ApiResp.ok page400] :=
  c1_pagination_termination_amended.1 1000 (by decide)
    [ApiResp.ok page1000, ApiResp.ok page1000, ApiResp.ok page400]

/-- C1 counterexample: for a requested limit of 500 (pageSize 500) and
a first page of exactly 500 edges, the source loop stops after a single
request (500 < 1000) although that page is neither empty nor strictly
shorter than pageSize, while the claimed policy issues a second request
at offset 500: the stop condition uses the constant 1000, not
pageSize. -/
theorem c1_stop_uses_constant_1000_counterexample :
    get_forward_citations 500 [ApiResp.ok page500, ApiResp.ok []]
      = some ⟨page500, [0], 0⟩
  ∧ get_forward_citations_spec 500 [ApiResp.ok page500, ApiResp.ok []]
      = some ⟨page500, [0, 500], 0⟩
  ∧ ¬(page500 = [] ∨ page500.length < pageSizeParam 500) := by
  exact ⟨by rfl, by rfl, by decide⟩

/-- C5: after `k` successful full pages, a transport fault (timeout,
connection error / exception, or unexpected status code) on the request
for page `k + 1` makes `get_forward_citations` return exactly the edges
accumulated from those `k` pages, without raising (`k + 1` requests in
total, no cooldowns); in particular a fault on the second page request
returns exactly the first page's edges. -/
theorem c5_transport_fault_partial :
    (∀ (pages : List (List CitationEdge)), (∀ p ∈ pages, p.length = 1000) →
      ∀ (f : ApiResp), f.isTransportFault = true → ∀ (rest : List ApiResp),
      get_forward_citations 1000 (pages.map ApiResp.ok ++ f :: rest)
        = some ⟨pages.flatten,
            pageOffsets 0 pages.length ++ [1000 * pages.length], 0⟩)
  ∧ get_forward_citations 1000 [ApiResp.ok page1000, ApiResp.timedOut]
      = some ⟨page1000, [0, 1000], 0⟩ := by
  constructor
  · intro pages h f hf rest
    unfold get_forward_citations
    rw [fetchLoop_full pages h (f :: rest) 0 [] [] 0]
    cases f <;> simp [ApiResp.isTransportFault] at hf <;> simp [fetchLoop]
  · rfl

/-- C5 witness: the general conjunct applied to one full page followed
by an exception on the second request. -/
theorem c5_transport_fault_partial_witness :
    get_forward_citations 1000
        ([page1000].map ApiResp.ok ++ ApiResp.exnFault :: [])
      = some ⟨[page1000].flatten,
          pageOffsets 0 [page1000].length ++ [1000 * [page1000].length], 0⟩ :=
  c5_transport_fault_partial.1 [page1000] (by decide) ApiResp.exnFault rfl []

/-- C6: when exactly one page request — the one after `k` successful
full pages — receives a throttling signal and the following response is
a normal page, the loop does not break: it re-requests the same offset
`1000 * k` after one cooldown wait.  The throttled run returns the
identical edge sequence, its request log is the unthrottled run's log
with the offset `1000 * k` duplicated (one extra request at that
offset), and its cooldown count is one higher. -/
theorem c6_throttle_retry_same_offset :
    ∀ (pages : List (List CitationEdge)), (∀ p ∈ pages, p.length = 1000) →
    ∀ (cs : List CitationEdge) (s : List ApiResp) (r : FetchResult),
    get_forward_citations 1000 (pages.map ApiResp.ok ++ ApiResp.ok cs :: s)
      = some r →
    ∃ t : List Nat,
      r.offsets = pageOffsets 0 pages.length ++ 1000 * pages.length :: t
      ∧ get_forward_citations 1000
          (pages.map ApiResp.ok ++ ApiResp.throttled :: ApiResp.ok cs :: s)
        = some ⟨r.citations,
            pageOffsets 0 pages.length
              ++ 1000 * pages.length :: 1000 * pages.length :: t,
            r.cooldowns + 1⟩ := by
  intro pages h cs s r hbase
  unfold get_forward_citations at hbase ⊢
  rw [fetchLoop_full pages h (ApiResp.ok cs :: s) 0 [] [] 0] at hbase
  rw [fetchLoop_full pages h (ApiResp.throttled :: ApiResp.ok cs :: s) 0 [] [] 0]
  simp only [Nat.zero_add, List.nil_append] at hbase ⊢
  rw [fetchLoop_frame] at hbase
  cases hc : fetchLoop (ApiResp.ok cs :: s) (1000 * pages.length)
      pages.flatten [] 0 with
  | none => rw [hc] at hbase; simp at hbase
  | some r0 =>
    rw [hc] at hbase
    simp only [Option.map_some'] at hbase
    injection hbase with hbase
    obtain ⟨t, ht⟩ := fetchLoop_ok_head cs s _ _ r0 hc
    refine ⟨t, ?_, ?_⟩
    · rw [← hbase]; simp [ht]
    · rw [show fetchLoop (ApiResp.throttled :: ApiResp.ok cs :: s)
          (1000 * pages.length) pages.flatten (pageOffsets 0 pages.length) 0
        = fetchLoop (ApiResp.ok cs :: s) (1000 * pages.length) pages.flatten
            (pageOffsets 0 pages.length ++ [1000 * pages.length]) (0 + 1)
        from rfl]
      rw [fetchLoop_frame, hc]
      simp only [Option.map_some']
      rw [← hbase]
      simp [ht]
      omega

/-- C6 witness: one full page, then a throttling signal, then a final
partial page. -/
theorem c6_throttle_retry_same_offset_witness :
    ∃ t : List Nat,
      (FetchResult.mk (page1000 ++ page400) [0, 1000] 0).offsets
        = pageOffsets 0 [page1000].length ++ 1000 * [page1000].length :: t
      ∧ get_forward_citations 1000
          ([page1000].map ApiResp.ok
            ++ ApiResp.throttled :: ApiResp.ok page400 :: [])
        = some ⟨(FetchResult.mk (page1000 ++ page400) [0, 1000] 0).citations,
            pageOffsets 0 [page1000].length
              ++ 1000 * [page1000].length :: 1000 * [page1000].length :: t,
            (FetchResult.mk (page1000 ++ page400) [0, 1000] 0).cooldowns + 1⟩ :=
  c6_throttle_retry_same_offset [page1000] (by decide) page400 []
    ⟨page1000 ++ page400, [0, 1000], 0⟩ (by rfl)

/-- C7: `get_paper_by_doi` retries the identical request after a
60-time-unit cooldown on every throttling signal: with `n` throttling
responses followed by a non-throttling one, it performs `60 * n`
time-units of cooldown and terminates with the outcome of that first
non-throttling response (the paper on HTTP 200, `None` on 404, other
status codes, timeouts and exceptions); on a script of throttling
responses only, it never produces an outcome. -/
theorem c7_resolver_throttle_retry :
    (∀ (n : Nat) (r : ResolveResp) (rest : List ResolveResp),
        r ≠ ResolveResp.throttled →
        get_paper_by_doi (List.replicate n ResolveResp.throttled ++ r :: rest)
          = some (respOutcome r, 60 * n))
  ∧ ∀ n : Nat,
      get_paper_by_doi (List.replicate n ResolveResp.throttled) = none := by
  constructor
  · intro n r rest hr
    induction n with
    | zero =>
      cases r with
      | okPaper p => simp [get_paper_by_doi, respOutcome]
      | notFound => simp [get_paper_by_doi, respOutcome]
      | throttled => exact absurd rfl hr
      | otherStatus => simp [get_paper_by_doi, respOutcome]
      | timedOut => simp [get_paper_by_doi, respOutcome]
      | exnFault => simp [get_paper_by_doi, respOutcome]
    | succ k ih =>
      simp [List.replicate_succ, get_paper_by_doi, ih, Nat.mul_succ]
  · intro n
    induction n with
    | zero => rfl
    | succ k ih => simp [List.replicate_succ, get_paper_by_doi, ih]

/-- C7 witness: two throttling responses then a 404. -/
theorem c7_resolver_throttle_retry_witness :
    get_paper_by_doi
        (List.replicate 2 ResolveResp.throttled ++ ResolveResp.notFound :: [])
      = some (respOutcome ResolveResp.notFound, 60 * 2) :=
  c7_resolver_throttle_retry.1 2 ResolveResp.notFound [] (by decide)

/-- Python's left-to-right non-overlapping replace skips a character
that does not start a match. -/
lemma removeTag4_cons_ne {x p1 : Char} (p2 p3 p4 : Char) {s : List Char}
    (h : x ≠ p1) :
    removeTag4 p1 p2 p3 p4 (x :: s) = x :: removeTag4 p1 p2 p3 p4 s := by
  match s with
  | [] => rfl
  | [a] => rfl
  | [a, b] => rfl
  | a :: b :: c :: t => simp [removeTag4, h]

/-- A match at the head is removed and scanning resumes after it. -/
lemma removeTag4_head (p1 p2 p3 p4 : Char) (s : List Char) :
    removeTag4 p1 p2 p3 p4 (p1 :: p2 :: p3 :: p4 :: s)
      = removeTag4 p1 p2 p3 p4 s := by
  simp [removeTag4]

lemma cleanDoiChars_upper (l : List Char) :
    cleanDoiChars ('D' :: 'O' :: 'I' :: ':' :: l) = cleanDoiChars l := by
  unfold cleanDoiChars
  rw [removeTag4_head]

lemma cleanDoiChars_lower (l : List Char) :
    cleanDoiChars ('d' :: 'o' :: 'i' :: ':' :: l) = cleanDoiChars l := by
  unfold cleanDoiChars
  rw [removeTag4_cons_ne 'O' 'I' ':' (by decide),
    removeTag4_cons_ne 'O' 'I' ':' (by decide),
    removeTag4_cons_ne 'O' 'I' ':' (by decide),
    removeTag4_cons_ne 'O' 'I' ':' (by decide),
    removeTag4_head]

/-- C2 (amended): the cleaning step removes the exact substrings
`'DOI:'` and `'doi:'`, so for those two exact casings a prefixed
identifier issues the identical service query as the bare identifier:
for every `s`, `resolve("DOI:" + s)`, `resolve("doi:" + s)` and
`resolve(s)` query the same URL.  (Mixed casings such as `'Doi:'` are
not stripped — see the counterexample.) -/
theorem c2_exact_case_strip_amended (s : String) :
    resolveUrl ("DOI:" ++ s) = resolveUrl s
  ∧ resolveUrl ("doi:" ++ s) = resolveUrl s := by
  have hu : ("DOI:" ++ s).toList = 'D' :: 'O' :: 'I' :: ':' :: s.toList := by
    simp [String.data_append]
  have hl : ("doi:" ++ s).toList = 'd' :: 'o' :: 'i' :: ':' :: s.toList := by
    simp [String.data_append]
  constructor
  · simp [resolveUrl, clean_doi, hu, cleanDoiChars_upper]
  · simp [resolveUrl, clean_doi, hl, cleanDoiChars_lower]

/-- C2 counterexample: `str.replace('DOI:', '').replace('doi:', '')` is
case-sensitive for its two exact patterns, so the prefix `'Doi:'` is
not stripped: `resolve("Doi:10.1/x")` and `resolve("10.1/x")` do not
issue the identical query, refuting case-insensitive stripping. -/
theorem c2_mixed_case_not_stripped_counterexample :
    resolveUrl "Doi:10.1/x" ≠ resolveUrl "10.1/x"
  ∧ resolveUrl "Doi:10.1/x"
      = "https://api.semanticscholar.org/graph/v1/paper/DOI:Doi:10.1/x"
  ∧ resolveUrl "10.1/x"
      = "https://api.semanticscholar.org/graph/v1/paper/DOI:10.1/x" := by
  exact ⟨by decide, by decide, by decide⟩

/-- C9: the cleaning step removes every occurrence of the exact
substrings `'DOI:'` and `'doi:'` anywhere in the input (then strips
surrounding whitespace), not only a leading scheme marker: for the
input `"10.1/aDOI:b"`, whose only occurrence is interior, the queried
identifier is `"10.1/ab"`, which differs from the input with only a
leading marker removed (the input itself, having none). -/
theorem c9_interior_occurrences_removed :
    clean_doi "10.1/aDOI:b" = "10.1/ab"
  ∧ clean_doi "DOI:10.doi:1/aDOI:b" = "10.1/ab"
  ∧ resolveUrl "10.1/aDOI:b"
      = "https://api.semanticscholar.org/graph/v1/paper/DOI:10.1/ab"
  ∧ resolveUrl "10.1/aDOI:b"
      ≠ "https://api.semanticscholar.org/graph/v1/paper/DOI:10.1/aDOI:b" := by
  exact ⟨by decide, by decide, by decide, by decide⟩

/-- A concrete resolved paper for counterexamples and witnesses. -/
def paperP0 : Paper := ⟨"pid0", some "T0", some "c0"⟩

/-- A citing paper whose middle author has no `name` key. -/
def cpAuthorsEx : CitingPaper :=
  { CitingPaper.empty with
    authors := some [⟨some "Ann"⟩, ⟨none⟩, ⟨some "Bo"⟩] }

/-- C3 (amended): the final dataset of `process_dois` is empty exactly
when every input document contributed zero rows — because it failed to
resolve or because it resolved with zero citation edges.  Emptiness
therefore does not single out "zero documents resolved". -/
theorem c3_empty_iff_no_rows_amended :
    ∀ (inputs : List (String × List ResolveResp × List ApiResp))
      (l : List FlatRecord),
    process_dois inputs = some l →
    (l = [] ↔ ∀ e ∈ inputs, processEntry e = some []) := by
  intro inputs
  induction inputs with
  | nil =>
    intro l h
    simp only [process_dois, Option.some.injEq] at h
    subst h
    simp
  | cons e es ih =>
    intro l h
    simp only [process_dois] at h
    cases he : processEntry e with
    | none => rw [he] at h; exact absurd h (by simp)
    | some rows =>
      rw [he] at h
      cases hes : process_dois es with
      | none => rw [hes] at h; exact absurd h (by simp)
      | some rest =>
        rw [hes] at h
        simp only [Option.some.injEq] at h
        subst h
        constructor
        · intro hnil
          have hro : rows = [] ∧ rest = [] := by
            constructor <;> cases rows <;> simp_all
          intro f hf
          rcases List.mem_cons.mp hf with rfl | hf'
          · rw [he, hro.1]
          · exact (ih rest hes).mp hro.2 f hf'
        · intro hall
          have h1 : processEntry e = some [] := hall e (List.mem_cons_self e es)
          rw [he] at h1
          injection h1 with h1
          have h2 : rest = [] :=
            (ih rest hes).mpr (fun f hf => hall f (List.mem_cons_of_mem e hf))
          simp [h1, h2]

/-- C3 witness: the amended theorem applied to a one-document input
whose resolve reports 404. -/
theorem c3_empty_iff_no_rows_amended_witness :
    ([] : List FlatRecord) = []
      ↔ ∀ e ∈ [(("10.1/x" : String), [ResolveResp.notFound],
          ([] : List ApiResp))], processEntry e = some [] :=
  c3_empty_iff_no_rows_amended
    [("10.1/x", [ResolveResp.notFound], [])] [] (by decide)

/-- C3 counterexample: a run whose only document does not resolve and a
run whose only document resolves but has zero citation edges both
produce the empty dataset — the empty result does not distinguish
"zero documents resolved" from "documents resolved, zero edges",
refuting the claim that emptiness occurs only with zero resolved
documents. -/
theorem c3_resolved_zero_edges_counterexample :
    process_dois [("10.1/x", [ResolveResp.notFound], [])] = some []
  ∧ process_dois [("10.1/x", [ResolveResp.okPaper paperP0], [ApiResp.ok []])]
      = some []
  ∧ get_paper_by_doi [ResolveResp.okPaper paperP0]
      = some (some paperP0, 0) := by
  exact ⟨by decide, by decide, by decide⟩

/-- C4: if the citing paper's abstract is present and non-empty, the
normalized `citing_abstract` is the abstract's first 500 characters
with the literal `'...'` suffix appended (the source appends the
ellipsis whenever the abstract is truthy, regardless of its length); a
600-character abstract yields exactly its first 500 characters followed
by the ellipsis; an absent or empty abstract yields the empty string
with no ellipsis. -/
theorem c4_abstract_truncation :
    (∀ (doi : String) (paper : Paper) (cp : CitingPaper) (s : String),
        cp.abstract = some s → s ≠ "" →
        (normalizeEdge doi paper ⟨some cp⟩).citing_abstract
          = pyTake500 s ++ "...")
  ∧ (∀ (doi : String) (paper : Paper) (cp : CitingPaper),
        cp.abstract = none ∨ cp.abstract = some "" →
        (normalizeEdge doi paper ⟨some cp⟩).citing_abstract = "")
  ∧ (normalizeEdge "10.1/x" paperP0
        ⟨some { CitingPaper.empty with
            abstract := some (String.mk (List.replicate 600 'a')) }⟩).citing_abstract
      = String.mk (List.replicate 500 'a') ++ "..." := by
  refine ⟨?_, ?_, by decide⟩
  · intro doi paper cp s hs hne
    simp [normalizeEdge, hs, hne]
  · intro doi paper cp h
    rcases h with h | h <;> simp [normalizeEdge, h]

/-- C4 witness: a present, non-empty, short abstract receives the
first-500-characters prefix (itself) plus the ellipsis. -/
theorem c4_abstract_truncation_witness :
    (normalizeEdge "d" paperP0
        ⟨some { CitingPaper.empty with abstract := some "xy" }⟩).citing_abstract
      = pyTake500 "xy" ++ "..." :=
  c4_abstract_truncation.1 "d" paperP0
    { CitingPaper.empty with abstract := some "xy" } "xy" rfl (by decide)

/-- C8: normalization is total and defaulting.  A missing `citingPaper`
sub-record yields the all-default row (empty strings, `citationCount`
0); an absent or null `externalIds` mapping yields empty strings for
all three identifier fields; the author list is joined with `"; "`
with a missing `name` contributing an empty element; an absent
`publicationTypes` sequence joins to the empty string.  Totality itself
is structural: `normalizeEdge` is a total function of its arguments. -/
theorem c8_normalizer_totality_defaults :
    (∀ (doi : String) (paper : Paper),
        normalizeEdge doi paper ⟨none⟩
          = ⟨doi, paper.title.getD "Unknown", paper.paperId,
              paper.corpusId.getD "", "", "", PyVal.str "", "", "", "", "",
              PyVal.int 0, "", "", ""⟩)
  ∧ (∀ (doi : String) (paper : Paper) (cp : CitingPaper),
        cp.externalIds = none →
        (normalizeEdge doi paper ⟨some cp⟩).citing_doi = ""
        ∧ (normalizeEdge doi paper ⟨some cp⟩).citing_pubmed_id = ""
        ∧ (normalizeEdge doi paper ⟨some cp⟩).citing_arxiv_id = "")
  ∧ (∀ (doi : String) (paper : Paper) (cp : CitingPaper)
        (authors : List Author),
        cp.authors = some authors →
        (normalizeEdge doi paper ⟨some cp⟩).citing_authors
          = String.intercalate "; " (authors.map (fun a => a.name.getD "")))
  ∧ (∀ (doi : String) (paper : Paper) (cp : CitingPaper),
        cp.publicationTypes = none →
        (normalizeEdge doi paper ⟨some cp⟩).citing_publication_types = "")
  ∧ (normalizeEdge "10.1/x" paperP0 ⟨some cpAuthorsEx⟩).citing_authors
      = "Ann; ; Bo" := by
  refine ⟨?_, ?_, ?_, ?_, by decide⟩
  · intro doi paper; rfl
  · intro doi paper cp h
    refine ⟨?_, ?_, ?_⟩ <;> simp [normalizeEdge, h]
  · intro doi paper cp authors h
    simp [normalizeEdge, h]
  · intro doi paper cp h
    simp [normalizeEdge, h]
    rfl

/-- C8 witness: the external-identifier conjunct applied to the citing
paper with every field absent. -/
theorem c8_normalizer_totality_defaults_witness :
    (normalizeEdge "d" paperP0 ⟨some CitingPaper.empty⟩).citing_doi = ""
    ∧ (normalizeEdge "d" paperP0 ⟨some CitingPaper.empty⟩).citing_pubmed_id = ""
    ∧ (normalizeEdge "d" paperP0 ⟨some CitingPaper.empty⟩).citing_arxiv_id = "" :=
  c8_normalizer_totality_defaults.2.1 "d" paperP0 CitingPaper.empty rfl

/-- C10: a missing `citationCount` defaults to the integer 0
(`.get('citationCount', 0)`), while the other missing scalar fields of
the citing paper — title, year, venue, paperId — default to the empty
string (`.get(key, '')`); a present year is kept as an integer, so
`citing_year` mixes `PyVal.int` and `PyVal.str ""` across rows, and
`citing_citation_count` is the only field with a non-string default (in
`FlatRecord` the remaining twelve fields are strings by type). -/
theorem c10_citation_count_default :
    (∀ (doi : String) (paper : Paper) (cp : CitingPaper),
        cp.citationCount = none →
        (normalizeEdge doi paper ⟨some cp⟩).citing_citation_count
          = PyVal.int 0)
  ∧ (∀ (doi : String) (paper : Paper) (cp : CitingPaper) (n : Int),
        cp.citationCount = some n →
        (normalizeEdge doi paper ⟨some cp⟩).citing_citation_count
          = PyVal.int n)
  ∧ (∀ (doi : String) (paper : Paper) (cp : CitingPaper),
        cp.title = none → (normalizeEdge doi paper ⟨some cp⟩).citing_title = "")
  ∧ (∀ (doi : String) (paper : Paper) (cp : CitingPaper),
        cp.venue = none → (normalizeEdge doi paper ⟨some cp⟩).citing_venue = "")
  ∧ (∀ (doi : String) (paper : Paper) (cp : CitingPaper),
        cp.paperId = none →
        (normalizeEdge doi paper ⟨some cp⟩).citing_paper_id = "")
  ∧ (∀ (doi : String) (paper : Paper) (cp : CitingPaper),
        cp.year = none →
        (normalizeEdge doi paper ⟨some cp⟩).citing_year = PyVal.str "")
  ∧ (∀ (doi : String) (paper : Paper) (cp : CitingPaper) (y : Int),
        cp.year = some y →
        (normalizeEdge doi paper ⟨some cp⟩).citing_year = PyVal.int y) := by
  refine ⟨?_, ?_, ?_, ?_, ?_, ?_, ?_⟩ <;>
    first
    | (intro doi paper cp h; simp [normalizeEdge, h])
    | (intro doi paper cp n h; simp [normalizeEdge, h])

/-- C10 witness: an all-absent citing paper gets integer 0 for the
citation count and the empty string for the year; a present year 2020
is kept as an integer — the two kinds mix across rows. -/
theorem c10_citation_count_default_witness :
    (normalizeEdge "d" paperP0 ⟨some CitingPaper.empty⟩).citing_citation_count
      = PyVal.int 0
    ∧ (normalizeEdge "d" paperP0 ⟨some CitingPaper.empty⟩).citing_year
      = PyVal.str ""
    ∧ (normalizeEdge "d" paperP0
        ⟨some { CitingPaper.empty with year := some 2020 }⟩).citing_year
      = PyVal.int 2020 :=
  ⟨c10_citation_count_default.1 "d" paperP0 CitingPaper.empty rfl,
   c10_citation_count_default.2.2.2.2.2.1 "d" paperP0 CitingPaper.empty rfl,
   c10_citation_count_default.2.2.2.2.2.2 "d" paperP0
     { CitingPaper.empty with year := some 2020 } 2020 rfl⟩
